import Mathlib

/-!
Shallow embedding of the job-oriented scraping service (backend/main.py,
backend/database.py) and proofs about it.

The embedding covers:
* string helpers mirroring the Python primitives used by the code
  (`str.split`, `str.strip`, `str.startswith`, `str.replace`, truthy `or`,
  negative-index list slicing);
* the background job runner `run_scraping_job` as a fold over the submitted
  location list, producing the persisted job-row trace, the results-table
  contents and the ordered sequence of database effects;
* the scraper `GoogleBusinessScraper.scrape_location` as a function over an
  oracle describing the behaviour of the external browser session;
* the HTTP handlers `create_scraping_job`, `get_job_status`,
  `get_job_results`, `download_results`, `login` and the dependency
  `get_current_user`.
-/

namespace Oz

/-! ## Python string primitives -/

/-- Split a list of characters at every occurrence of `c`
(the semantics of Python `str.split(",")` for a one-character separator:
`"".split(",") == [""]`, separators at the ends produce empty pieces). -/
def splitChar (c : Char) : List Char → List (List Char)
  | [] => [[]]
  | x :: xs =>
    let r := splitChar c xs
    if x = c then [] :: r
    else
      match r with
      | y :: ys => (x :: y) :: ys
      | [] => [[x]]

/-- Python `s.split(c)` for a one-character separator `c`. -/
def pySplit (c : Char) (s : String) : List String :=
  (splitChar c s.data).map (fun l => String.mk l)

/-- Python `s.strip()`: remove leading and trailing whitespace. -/
def pyStrip (s : String) : String :=
  String.mk (((s.data.dropWhile Char.isWhitespace).reverse.dropWhile
    Char.isWhitespace).reverse)

/-- Python `s.startswith(p)`. -/
def pyStartsWith (p s : String) : Bool := p.data.isPrefixOf s.data

/-- Python `x or d` for an optional string `x`: `None` and the empty string
are falsy and give `d`. -/
def pyOr (x : Option String) (d : String) : String :=
  match x with
  | none => d
  | some s => if s = "" then d else s

/-- Python `s.replace(pat, rep)` on character lists, for a non-empty `pat`
(all occurrences, left to right, non-overlapping). -/
def replaceList (pat rep : List Char) : List Char → List Char
  | [] => []
  | x :: xs =>
    if pat.isPrefixOf (x :: xs) ∧ pat ≠ [] then
      rep ++ replaceList pat rep (List.drop (pat.length - 1) xs)
    else
      x :: replaceList pat rep xs
termination_by s => s.length
decreasing_by
  · simp only [List.length_drop, List.length_cons]
    omega
  · simp only [List.length_cons]
    omega

/-- Python `s.replace(pat, rep)`. -/
def pyReplace (pat rep s : String) : String :=
  String.mk (replaceList pat.data rep.data s.data)

/-- Python slicing `l[:n]` for an `int` bound `n` (a negative bound counts
from the end of the list, clamping at zero). -/
def pySliceTo (l : List α) (n : Int) : List α :=
  if 0 ≤ n then l.take n.toNat else l.take (l.length - n.natAbs)

/-! ## Data model -/

/-- The `ScrapingStatus` enumeration of main.py. -/
inductive JStatus
  | pending
  | running
  | completed
  | failed
deriving DecidableEq

/-- One business listing: the dictionary built by `scrape_location` and the
column set of the `results` table. -/
structure Listing where
  business_name : String
  phone : String
  website : String
  address : String
  category : String
  city : String
  state : String
  google_maps_url : String
deriving DecidableEq

/-- The mutable part of a persisted `jobs` row that the background run
touches (`status`, `progress`, `total_cities`, `current_city`, `error`). -/
structure JobRow where
  status : JStatus
  progress : Nat
  total_cities : Nat
  current_city : String
  error : Option String
deriving DecidableEq

/-- The `jobs` row as inserted by `create_scraping_job`: the INSERT lists
these columns, the remaining ones take the schema defaults of database.py
(`progress` 0, NULL `current_city`, `error`, `completed_at`). -/
def initialJobRow (totalCities : Nat) : JobRow :=
  { status := .pending
    progress := 0
    total_cities := totalCities
    current_city := ""
    error := none }

/-- One database effect of the background run, in program order:
the per-iteration `SELECT status` check, the progress/current-city UPDATE,
`job_logs` INSERTs, the call into the scraper, `results` INSERTs, status
UPDATEs, and the CSV export. -/
inductive REvent
  | statusCheck (s : JStatus)
  | progressWrite (city : String) (progress : Nat)
  | logWrite (msg : String)
  | scrapeCall (city state : String)
  | resultInsert (r : Listing)
  | statusWrite (s : JStatus)
  | csvSave (n : Nat)
deriving DecidableEq

/-- State threaded through the background run: the current persisted job
row, the list of every job-row snapshot ever persisted (oldest first), the
ordered effect list, the `results`-table rows of this job, the in-memory
`all_results` list, and whether the loop has executed `break`. -/
structure RunState where
  job : JobRow
  trace : List JobRow
  events : List REvent
  resultsTable : List Listing
  allResults : List Listing
  broke : Bool

/-! ## The background run (`run_scraping_job`, main.py:478-596) -/

/-- Progress as computed at main.py:512: `int((idx + 1) / len(cities_data) * 100)`.
Python evaluates this on IEEE doubles and `int` truncates toward zero; the
embedding idealizes it as exact floor division on naturals.  The two can
diverge: for `total = 100, idx + 1 = 29` the doubles give
`int(28.999999999999996) = 28` while the floor is 29.  Accordingly no
theorem below asserts this value universally: concrete evaluations use only
float-exact inputs, and the bounds proved (such as the value being at most
100 when `idx + 1 <= total`) hold of the float computation as well. -/
def pyProgress (idxPlusOne total : Nat) : Nat := idxPlusOne * 100 / total

/-- Well-formedness test of main.py:506-507: `len(city_state.split(",")) >= 2`. -/
def wellFormed (cs : String) : Bool := decide (2 ≤ (pySplit ',' cs).length)

/-- `parts[0].strip()` (main.py:508). -/
def locCity (cs : String) : String := pyStrip ((pySplit ',' cs).headD "")

/-- `parts[1].strip()` (main.py:509). -/
def locState (cs : String) : String := pyStrip ((pySplit ',' cs).getD 1 "")

/-- `current_city = f"{city}, {state}"` (main.py:511). -/
def fmtCity (cs : String) : String := locCity cs ++ ", " ++ locState cs

/-- The log line of main.py:522-523. -/
def procMsg (idx total : Nat) (cs : String) : String :=
  "Processing city " ++ Nat.repr (idx + 1) ++ "/" ++ Nat.repr total ++ ": "
    ++ fmtCity cs

/-- The log line of main.py:551-552. -/
def foundMsg (n : Nat) (cs : String) : String :=
  "Found " ++ Nat.repr n ++ " businesses in " ++ fmtCity cs

/-- One iteration of the `for idx, city_state in enumerate(...)` loop
(main.py:498-557).  `scrape` abstracts `scraper.scrape_location` (category,
city, state, max_results); `ext idx` says whether an external actor has set
the persisted status to `failed` before this iteration's status check.
After a `break` (`broke` set) the remaining iterations do nothing. -/
def stepIter (scrape : String → String → String → Int → List Listing)
    (category : String) (maxr : Int) (total : Nat) (ext : Nat → Bool)
    (st : RunState) (idx : Nat) (cs : String) : RunState :=
  if st.broke then st
  else
    let job0 := if ext idx then { st.job with status := .failed } else st.job
    let trace0 := if ext idx then st.trace ++ [job0] else st.trace
    if job0.status = .failed then
      -- SELECT status ...; if "failed": break   (main.py:500-503)
      { st with job := job0, trace := trace0
                events := st.events ++ [.statusCheck job0.status]
                broke := true }
    else if wellFormed cs then
      -- parse, UPDATE progress/current_city, INSERT log, scrape,
      -- INSERT results, INSERT log   (main.py:506-557)
      let job1 := { job0 with
        current_city := fmtCity cs
        progress := pyProgress (idx + 1) total }
      let rs := scrape category (locCity cs) (locState cs) maxr
      { st with job := job1, trace := trace0 ++ [job1]
                events := st.events
                  ++ [.statusCheck job0.status,
                      .progressWrite (fmtCity cs) (pyProgress (idx + 1) total),
                      .logWrite (procMsg idx total cs),
                      .scrapeCall (locCity cs) (locState cs)]
                  ++ rs.map REvent.resultInsert
                  ++ [.logWrite (foundMsg rs.length cs)]
                resultsTable := st.resultsTable ++ rs
                allResults := st.allResults ++ rs
                broke := false }
    else
      -- a location with fewer than two comma-separated parts is skipped
      { st with job := job0, trace := trace0
                events := st.events ++ [.statusCheck job0.status]
                broke := false }

/-- State at the start of the run: the inserted row, then the
`status = "running"` UPDATE (main.py:487-489) and the starting log line
(main.py:492-494). -/
def startState (category : String) (total : Nat) : RunState :=
  let j0 := initialJobRow total
  let j1 := { j0 with status := JStatus.running }
  { job := j1
    trace := [j0, j1]
    events := [.statusWrite .running,
               .logWrite ("Starting scraping job for category: " ++ category)]
    resultsTable := []
    allResults := []
    broke := false }

/-- The epilogue after the loop (main.py:559-576): CSV export when
`all_results` is non-empty, then the unconditional
`status = "completed", progress = 100` UPDATE and the completion log. -/
def finishState (st : RunState) : RunState :=
  let st1 :=
    if st.allResults.isEmpty then st
    else { st with events := st.events ++ [.csvSave st.allResults.length] }
  let jC := { st1.job with status := JStatus.completed, progress := 100 }
  { st1 with job := jC
             trace := st1.trace ++ [jC]
             events := st1.events
               ++ [.statusWrite .completed,
                   .logWrite ("Job completed successfully. Total businesses found: "
                     ++ Nat.repr st1.allResults.length)] }

/-- The background task `run_scraping_job` (main.py:478-596) on the
non-exceptional path: every modelled operation is total, so the
`except`-branch (main.py:580-591) is unreachable in the embedding. -/
def run_scraping_job (scrape : String → String → String → Int → List Listing)
    (category : String) (cities : List String) (maxr : Int)
    (ext : Nat → Bool) : RunState :=
  finishState ((cities.enum).foldl
    (fun s p => stepIter scrape category maxr cities.length ext s p.1 p.2)
    (startState category cities.length))

/-- No external interference with the job row. -/
def noExt : Nat → Bool := fun _ => false

/-! ## Spec-side progress formula (for refinement comparison)

The specification states the persisted progress as
`round(100 * completed_count / total_count)`.  `specProgress` follows those
words: Python `round` rounds to the nearest integer with ties to even. -/

/-- Round `num / den` to the nearest natural, ties to even (Python `round`). -/
def pyRound (num den : Nat) : Nat :=
  let q := num / den
  let r := num % den
  if 2 * r < den then q
  else if den < 2 * r then q + 1
  else if q % 2 = 0 then q else q + 1

/-- The progress value claimed by the spec: `round(100 * completed / total)`. -/
def specProgress (completedCount total : Nat) : Nat :=
  pyRound (100 * completedCount) total

/-! ## Decomposition of one loop iteration

In the non-broken, non-interfered (`noExt`) case with the job running, one
iteration of the loop appends a fixed block to each accumulator; these
definitions name those blocks so that theorems can speak about the
contribution of a single location. -/

/-- Rows the iteration on `cs` appends to the `results` table. -/
def iterResults (scrape : String → String → String → Int → List Listing)
    (category : String) (maxr : Int) (cs : String) : List Listing :=
  if wellFormed cs then scrape category (locCity cs) (locState cs) maxr else []

/-- The job row after the iteration on `cs` at position `idx`. -/
def iterJob (job : JobRow) (idx : Nat) (cs : String) (total : Nat) : JobRow :=
  if wellFormed cs then
    { job with current_city := fmtCity cs, progress := pyProgress (idx + 1) total }
  else job

/-- Job-row snapshots the iteration on `cs` persists. -/
def iterTrace (job : JobRow) (idx : Nat) (cs : String) (total : Nat) : List JobRow :=
  if wellFormed cs then [iterJob job idx cs total] else job |> fun _ => []

/-- Database effects of the iteration on `cs` at position `idx`: the status
check, then — only for a well-formed location — the progress/current-city
UPDATE, the processing log, the scrape call, the result INSERTs and the
found-count log, in that program order. -/
def iterBlock (scrape : String → String → String → Int → List Listing)
    (category : String) (maxr : Int) (total idx : Nat) (cs : String) :
    List REvent :=
  REvent.statusCheck .running ::
    (if wellFormed cs then
      [.progressWrite (fmtCity cs) (pyProgress (idx + 1) total),
       .logWrite (procMsg idx total cs),
       .scrapeCall (locCity cs) (locState cs)]
      ++ (scrape category (locCity cs) (locState cs) maxr).map REvent.resultInsert
      ++ [.logWrite (foundMsg (scrape category (locCity cs) (locState cs) maxr).length cs)]
    else [])

/-! ## The location scraper (`GoogleBusinessScraper.scrape_location`,
main.py:363-471)

The external browser session is abstracted as an oracle: each Playwright
operation the code awaits may either succeed with a value or raise
(`Except.error`).  The control flow of `scrape_location` — which awaits
happen, which try/except blocks catch what, how hrefs are collected,
deduplicated and truncated — is translated from the source. -/

/-- Behaviour of the external browser session for one call. -/
structure Oracle where
  initBrowser : Except String Unit
  gotoMaps : Except String Unit
  waitSearchbox : Except String Unit
  fillSearch : String → Except String Unit
  pressEnter : Except String Unit
  waitFeed : Except String Unit
  scrollEval : Nat → Except String Unit
  endOfList : Nat → Except String Nat
  listingHrefs : Except String (List (Option String))
  gotoUrl : String → Except String Unit
  waitH1 : String → Except String Unit
  h1Text : String → Except String String
  websiteCount : String → Except String Nat
  websiteHref : String → Except String (Option String)
  phoneCount : String → Except String Nat
  phoneLabel : String → Except String (Option String)
  addressCount : String → Except String Nat
  addressLabel : String → Except String (Option String)

/-- Href normalization (main.py:405-406): relative hrefs are prefixed with
the site origin, then the query string is dropped (`full_url.split('?')[0]`). -/
def normalizeHref (href : String) : String :=
  let full := if pyStartsWith "http" href then href
              else "https://www.google.com" ++ href
  (pySplit '?' full).headD full

/-- URL collection (main.py:399-408): keep the non-null normalized hrefs,
deduplicate via `list(set(...))` and truncate with `[:max_results]`.
Python iterates a set in unspecified hash order; the embedding realizes the
deduplication as `List.dedup`, which is order-specific but agrees with any
set order on the properties proved here (no duplicates, length, membership). -/
def collectUrls (hrefs : List (Option String)) (maxResults : Int) : List String :=
  pySliceTo ((hrefs.filterMap (fun h => h.map normalizeHref)).dedup) maxResults

/-- Website extraction (main.py:423-427): initialized to "N/A"; inside its
own try/except any raise leaves "N/A"; a null or empty href gives "N/A". -/
def extractWebsite (o : Oracle) (url : String) : String :=
  match o.websiteCount url with
  | .error _ => "N/A"
  | .ok n =>
    if n > 0 then
      match o.websiteHref url with
      | .error _ => "N/A"
      | .ok h => pyOr h "N/A"
    else "N/A"

/-- Phone extraction (main.py:430-436): as for the website, then
`replace("Phone: ", "").strip()` when a value was found. -/
def extractPhone (o : Oracle) (url : String) : String :=
  match o.phoneCount url with
  | .error _ => "N/A"
  | .ok n =>
    if n > 0 then
      match o.phoneLabel url with
      | .error _ => "N/A"
      | .ok lab =>
        let phone := pyOr lab "N/A"
        if phone ≠ "N/A" then pyStrip (pyReplace "Phone: " "" phone) else phone
    else "N/A"

/-- Address extraction (main.py:439-445), analogous to the phone. -/
def extractAddress (o : Oracle) (url : String) : String :=
  match o.addressCount url with
  | .error _ => "N/A"
  | .ok n =>
    if n > 0 then
      match o.addressLabel url with
      | .error _ => "N/A"
      | .ok lab =>
        let address := pyOr lab "N/A"
        if address ≠ "N/A" then pyStrip (pyReplace "Address: " "" address)
        else address
    else "N/A"

/-- One detail-page visit (main.py:413-460, the body of the inner try):
navigate, wait for the heading, read the name, then extract the optional
fields, each already total.  A raise anywhere propagates to the caller's
per-listing except, which skips the listing. -/
def visitOne (o : Oracle) (category city state url : String) :
    Except String Listing :=
  match o.gotoUrl url with
  | .error e => .error e
  | .ok _ =>
    match o.waitH1 url with
    | .error e => .error e
    | .ok _ =>
      match o.h1Text url with
      | .error e => .error e
      | .ok name =>
        .ok { business_name := name
              phone := extractPhone o url
              website := extractWebsite o url
              address := extractAddress o url
              category := category
              city := city
              state := state
              google_maps_url := url }

/-- The `for url in urls_to_visit` loop (main.py:412-464): each visit that
raises is skipped (`except ... continue`), each successful one appends its
listing. -/
def visitLoop (o : Oracle) (category city state : String)
    (urls : List String) : List Listing :=
  urls.filterMap (fun u => (visitOne o category city state u).toOption)

/-- The scroll loop (main.py:388-396): up to `fuel` iterations, each one
evaluating the scroll script and breaking early when the end-of-list
marker is found. -/
def scrollLoop (o : Oracle) : Nat → Nat → Except String Unit
  | _, 0 => .ok ()
  | i, fuel + 1 =>
    match o.scrollEval i with
    | .error e => .error e
    | .ok _ =>
      match o.endOfList i with
      | .error e => .error e
      | .ok c => if c > 0 then .ok () else scrollLoop o (i + 1) fuel

/-- The body of the outer try of `scrape_location` (main.py:371-467).
The feed wait has its own try/except returning `[]` on a raise
(main.py:380-384); every other raise propagates to the outer handler. -/
def scrapeBody (o : Oracle) (category city state : String)
    (maxResults : Int) : Except String (List Listing) :=
  match o.gotoMaps with
  | .error e => .error e
  | .ok _ =>
    match o.waitSearchbox with
    | .error e => .error e
    | .ok _ =>
      match o.fillSearch (category ++ " in " ++ city ++ ", " ++ state) with
      | .error e => .error e
      | .ok _ =>
        match o.pressEnter with
        | .error e => .error e
        | .ok _ =>
          match o.waitFeed with
          | .error _ => .ok []
          | .ok _ =>
            match scrollLoop o 0 10 with
            | .error e => .error e
            | .ok _ =>
              match o.listingHrefs with
              | .error e => .error e
              | .ok hrefs =>
                .ok (visitLoop o category city state (collectUrls hrefs maxResults))

/-- `scrape_location` (main.py:363-471).  The lazy browser initialization
(`if not self.page: await self.init_browser()`, main.py:365-366) happens
BEFORE the try block, so a raise there propagates to the caller; the outer
try/except (main.py:469-471) converts any other raise into `[]`. -/
def scrape_location (o : Oracle) (pageInit : Bool)
    (category city state : String) (maxResults : Int) :
    Except String (List Listing) :=
  match (if pageInit then Except.ok () else o.initBrowser) with
  | .error e => .error e
  | .ok _ =>
    match scrapeBody o category city state maxResults with
    | .error _ => .ok []
    | .ok l => .ok l

/-- A browser behaviour where every operation succeeds, the end-of-list
marker shows immediately, the feed exposes two relative listing hrefs and
every detail page carries the heading "Biz" with no optional fields. -/
def demoOracle : Oracle where
  initBrowser := .ok ()
  gotoMaps := .ok ()
  waitSearchbox := .ok ()
  fillSearch := fun _ => .ok ()
  pressEnter := .ok ()
  waitFeed := .ok ()
  scrollEval := fun _ => .ok ()
  endOfList := fun _ => .ok 1
  listingHrefs := .ok [some "/maps/place/a", some "/maps/place/b"]
  gotoUrl := fun _ => .ok ()
  waitH1 := fun _ => .ok ()
  h1Text := fun _ => .ok "Biz"
  websiteCount := fun _ => .ok 0
  websiteHref := fun _ => .ok none
  phoneCount := fun _ => .ok 0
  phoneLabel := fun _ => .ok none
  addressCount := fun _ => .ok 0
  addressLabel := fun _ => .ok none

/-- The demo behaviour, except that launching the browser raises. -/
def failInitOracle : Oracle :=
  { demoOracle with initBrowser := .error "browser launch failed" }

/-- The demo behaviour, except that waiting for the results feed times out. -/
def feedTimeoutOracle : Oracle :=
  { demoOracle with waitFeed := .error "Timeout 15000ms exceeded" }

/-! ## The progress invariant (claim C1) -/

/-- Row invariant: progress within bounds, and a completed row shows 100. -/
def goodRow (r : JobRow) : Prop :=
  r.progress ≤ 100 ∧ (r.status = JStatus.completed → r.progress = 100)

/-- Invariant of the loop: every persisted snapshot is good, the live row is
good, and the live status is `running` or `failed` (never `completed`
mid-loop). -/
def InvGood (st : RunState) : Prop :=
  (∀ r ∈ st.trace, goodRow r) ∧ goodRow st.job ∧
    (st.job.status = JStatus.running ∨ st.job.status = JStatus.failed)

/-! ## Users, jobs and the HTTP handlers

The handlers are modelled over an explicit database value and return
`Except Nat α`: `.error c` is an `HTTPException` with status code `c`,
`.ok` the JSON payload.  The password-hashing and token primitives live in
the out-of-scope auth module; the handlers take them as parameters
(`decode`, `verify`, `createToken`), so every theorem below holds for every
behaviour of those primitives. -/

/-- A row of the `users` table (database.py:18-29). -/
structure UserRec where
  id : Nat
  username : String
  email : String
  password_hash : String
  is_approved : Bool
  is_admin : Bool
deriving DecidableEq

/-- The dictionary returned by `get_current_user` (main.py:140-145). -/
structure CurrentUser where
  id : Nat
  username : String
  email : String
  is_admin : Bool
deriving DecidableEq

/-- A row of the `jobs` table (database.py:32-49).  The INSERT of
`create_scraping_job` names the first eight columns; the remaining ones
take the schema defaults. -/
structure JobRec where
  job_id : String
  user_id : Nat
  category : String
  cities_data : List String
  max_results_per_city : Int
  status : JStatus
  total_cities : Nat
  created_at : String
  progress : Nat := 0
  current_city : Option String := none
  error : Option String := none
  completed_at : Option String := none
deriving DecidableEq

/-- A row of the `results` table (database.py:52-66). -/
structure ResultRec where
  job_id : String
  row : Listing
deriving DecidableEq

/-- A row of the `job_logs` table (database.py:69-77). -/
structure LogRec where
  job_id : String
  log_message : String
deriving DecidableEq

/-- The persistent store. -/
structure DB where
  users : List UserRec
  jobs : List JobRec
  results : List ResultRec
  job_logs : List LogRec
deriving DecidableEq

/-- The `ScrapingJob` pydantic response model (main.py:85-95) with its
field defaults. -/
structure ScrapingJob where
  job_id : String
  status : JStatus
  progress : Nat := 0
  total_cities : Nat := 0
  current_city : String := ""
  results : List Listing := []
  error : Option String := none
  created_at : String
  completed_at : Option String := none
  logs : List String := []
deriving DecidableEq

/-- The body of `POST /api/jobs` (main.py:66). -/
structure ScrapeRequest where
  category : String
  cities_data : List String
  max_results_per_city : Int := 10
deriving DecidableEq

/-- The dependency `get_current_user` (main.py:104-145): decode the token
(`None` → 401), read its `sub` claim (`None` → 401), look the user up
(missing → 401), reject an unapproved account with 403, else return the
user summary.  `decode` abstracts `decode_access_token` of the
out-of-scope auth module. -/
def get_current_user (db : DB) (decode : String → Option (Option String))
    (token : String) : Except Nat CurrentUser :=
  match decode token with
  | none => .error 401
  | some none => .error 401
  | some (some sub) =>
    match db.users.find? (fun u => u.username == sub) with
    | none => .error 401
    | some u =>
      if u.is_approved then
        .ok { id := u.id, username := u.username, email := u.email
              is_admin := u.is_admin }
      else .error 403

/-- The dependency `get_admin_user` (main.py:147-154). -/
def get_admin_user (db : DB) (decode : String → Option (Option String))
    (token : String) : Except Nat CurrentUser :=
  match get_current_user db decode token with
  | .error c => .error c
  | .ok u => if u.is_admin then .ok u else .error 403

/-- An authenticated endpoint: FastAPI resolves the `Depends(get_current_user)`
dependency before the handler body runs, for every such endpoint. -/
def withAuth {α : Type} (db : DB) (decode : String → Option (Option String))
    (token : String) (handler : CurrentUser → Except Nat α) : Except Nat α :=
  match get_current_user db decode token with
  | .error c => .error c
  | .ok u => handler u

/-- `POST /api/auth/login` (main.py:189-230): unknown user or failed
verification → 401, unapproved account → 403, else a token and the user
summary.  `verify` and `createToken` abstract `verify_password` and
`create_access_token` of the out-of-scope auth module. -/
def login (db : DB) (verify : String → String → Bool)
    (createToken : String → String) (username password : String) :
    Except Nat (String × CurrentUser) :=
  match db.users.find? (fun u => u.username == username) with
  | none => .error 401
  | some u =>
    if ¬ verify password u.password_hash then .error 401
    else if ¬ u.is_approved then .error 403
    else
      .ok (createToken u.username,
        { id := u.id, username := u.username, email := u.email
          is_admin := u.is_admin })

/-- `POST /api/jobs` (main.py:600-633): the row inserted into the `jobs`
table and the response returned to the client.  The response is built with
only `job_id`, `status`, `created_at` and `logs` passed explicitly
(main.py:628-633); every other field takes the pydantic default. -/
def create_scraping_job (req : ScrapeRequest) (userId : Nat)
    (jobId now : String) : JobRec × ScrapingJob :=
  ({ job_id := jobId
     user_id := userId
     category := req.category
     cities_data := req.cities_data
     max_results_per_city := req.max_results_per_city
     status := .pending
     total_cities := req.cities_data.length
     created_at := now },
   { job_id := jobId
     status := .pending
     created_at := now
     logs := ["Job created for category: " ++ req.category] })

/-- `GET /api/jobs/{job_id}` (main.py:635-692): the SELECT filters on
`job_id = ? AND user_id = ?`, so a missing or foreign job is 404. -/
def get_job_status (db : DB) (jobId : String) (user : CurrentUser) :
    Except Nat ScrapingJob :=
  match db.jobs.find? (fun j => j.job_id == jobId && j.user_id == user.id) with
  | none => .error 404
  | some j =>
    .ok { job_id := j.job_id
          status := j.status
          progress := j.progress
          total_cities := j.total_cities
          current_city := j.current_city.getD ""
          results := (db.results.filter (fun r => r.job_id == jobId)).map
            ResultRec.row
          error := j.error
          created_at := j.created_at
          completed_at := j.completed_at
          logs := (db.job_logs.filter (fun r => r.job_id == jobId)).map
            LogRec.log_message }

/-- The payload of `GET /api/jobs/{job_id}/results` (main.py:753-757). -/
structure ResultsResponse where
  job_id : String
  total_results : Nat
  results : List Listing
deriving DecidableEq

/-- `GET /api/jobs/{job_id}/results` (main.py:719-757): the job is fetched
by id alone, then `if not job or job[0] != current_user["id"]` yields 404. -/
def get_job_results (db : DB) (jobId : String) (user : CurrentUser) :
    Except Nat ResultsResponse :=
  match db.jobs.find? (fun j => j.job_id == jobId) with
  | none => .error 404
  | some j =>
    if j.user_id == user.id then
      .ok { job_id := jobId
            total_results := ((db.results.filter (fun r => r.job_id == jobId)).map
              ResultRec.row).length
            results := (db.results.filter (fun r => r.job_id == jobId)).map
              ResultRec.row }
    else .error 404

/-- The payload of `GET /api/jobs/{job_id}/download` (main.py:801-805);
the CSV serialization itself is out of scope, the rows it is built from
are kept. -/
structure DownloadResponse where
  filename : String
  rows : List Listing
deriving DecidableEq

/-- `GET /api/jobs/{job_id}/download` (main.py:759-805): ownership is
checked by the `job_id = ? AND user_id = ?` SELECT (missing → 404), then a
job that is not `completed` is 400. -/
def download_results (db : DB) (jobId : String) (user : CurrentUser) :
    Except Nat DownloadResponse :=
  match db.jobs.find? (fun j => j.job_id == jobId && j.user_id == user.id) with
  | none => .error 404
  | some j =>
    if j.status = JStatus.completed then
      .ok { filename := "business_results_" ++ jobId ++ ".csv"
            rows := (db.results.filter (fun r => r.job_id == jobId)).map
              ResultRec.row }
    else .error 400

/-- A job owned by user 1, used in concrete witnesses. -/
def demoJob : JobRec :=
  { job_id := "j1"
    user_id := 1
    category := "cafes"
    cities_data := ["Reno, Nevada"]
    max_results_per_city := 3
    status := .completed
    total_cities := 1
    created_at := "t0" }

/-- A store with one job owned by user 1 and one unapproved user. -/
def demoDB : DB :=
  { users := [{ id := 3, username := "bob", email := "bob@example.com"
                password_hash := "h", is_approved := false, is_admin := false }]
    jobs := [demoJob]
    results := []
    job_logs := [] }

/-- An authenticated user other than the owner of `demoJob`. -/
def otherUser : CurrentUser :=
  { id := 2, username := "eve", email := "eve@example.com", is_admin := false }

/-! ## Lemmas -/

lemma iterJob_status (job : JobRow) (idx : Nat) (cs : String) (total : Nat) :
    (iterJob job idx cs total).status = job.status := by
  unfold iterJob; split <;> rfl

lemma stepIter_noExt_eq (scrape : String → String → String → Int → List Listing)
    (category : String) (maxr : Int) (total idx : Nat) (cs : String)
    (st : RunState) (hb : st.broke = false) (hs : st.job.status = .running) :
    stepIter scrape category maxr total noExt st idx cs =
      { job := iterJob st.job idx cs total
        trace := st.trace ++ iterTrace st.job idx cs total
        events := st.events ++ iterBlock scrape category maxr total idx cs
        resultsTable := st.resultsTable ++ iterResults scrape category maxr cs
        allResults := st.allResults ++ iterResults scrape category maxr cs
        broke := false } := by
  by_cases hwf : wellFormed cs <;>
    simp [stepIter, noExt, hb, hs, hwf, iterJob, iterTrace, iterBlock, iterResults,
      List.append_assoc]

lemma foldl_noExt (scrape : String → String → String → Int → List Listing)
    (category : String) (maxr : Int) (total : Nat) :
    ∀ (l : List (Nat × String)) (st : RunState), st.broke = false →
      st.job.status = .running →
      ((l.foldl (fun s p => stepIter scrape category maxr total noExt s p.1 p.2) st).broke
          = false) ∧
      ((l.foldl (fun s p => stepIter scrape category maxr total noExt s p.1 p.2) st).job.status
          = .running) ∧
      ((l.foldl (fun s p => stepIter scrape category maxr total noExt s p.1 p.2) st).events
          = st.events
            ++ (l.map (fun p => iterBlock scrape category maxr total p.1 p.2)).flatten) ∧
      ((l.foldl (fun s p => stepIter scrape category maxr total noExt s p.1 p.2)
          st).resultsTable
          = st.resultsTable
            ++ (l.map (fun p => iterResults scrape category maxr p.2)).flatten) := by
  intro l
  induction l with
  | nil => intro st hb hs; simpa using ⟨hb, hs⟩
  | cons p l ih =>
    intro st hb hs
    rw [List.foldl_cons, stepIter_noExt_eq scrape category maxr total p.1 p.2 st hb hs]
    have hs' : (iterJob st.job p.1 p.2 total).status = JStatus.running := by
      rw [iterJob_status]; exact hs
    obtain ⟨b, s, e, r⟩ := ih
      { job := iterJob st.job p.1 p.2 total
        trace := st.trace ++ iterTrace st.job p.1 p.2 total
        events := st.events ++ iterBlock scrape category maxr total p.1 p.2
        resultsTable := st.resultsTable ++ iterResults scrape category maxr p.2
        allResults := st.allResults ++ iterResults scrape category maxr p.2
        broke := false } rfl hs'
    exact ⟨b, s, by simp [e, List.append_assoc], by simp [r, List.append_assoc]⟩

lemma finishState_job (st : RunState) :
    (finishState st).job
      = { st.job with status := JStatus.completed, progress := 100 } := by
  unfold finishState; split <;> rfl

lemma finishState_trace (st : RunState) :
    (finishState st).trace
      = st.trace ++ [{ st.job with status := JStatus.completed, progress := 100 }] := by
  unfold finishState; split <;> rfl

lemma finishState_resultsTable (st : RunState) :
    (finishState st).resultsTable = st.resultsTable := by
  unfold finishState; split <;> rfl

lemma finishState_events_append (st : RunState) :
    ∃ tail, (finishState st).events = st.events ++ tail := by
  unfold finishState
  split
  · exact ⟨_, rfl⟩
  · exact ⟨_, List.append_assoc st.events _ _⟩

lemma pyProgress_le_100 {k total : Nat} (hpos : 0 < total) (h : k ≤ total) :
    pyProgress k total ≤ 100 := by
  unfold pyProgress
  calc k * 100 / total ≤ total * 100 / total :=
        Nat.div_le_div_right (Nat.mul_le_mul_right _ h)
    _ = 100 := Nat.mul_div_cancel_left _ hpos


lemma stepIter_broke_eq (scrape : String → String → String → Int → List Listing)
    (category : String) (maxr : Int) (total : Nat) (ext : Nat → Bool)
    {st : RunState} (idx : Nat) (cs : String) (hb : st.broke = true) :
    stepIter scrape category maxr total ext st idx cs = st := by
  simp [stepIter, hb]

lemma stepIter_ext_eq (scrape : String → String → String → Int → List Listing)
    (category : String) (maxr : Int) (total : Nat) (ext : Nat → Bool)
    {st : RunState} (idx : Nat) (cs : String) (hb : st.broke = false)
    (he : ext idx = true) :
    stepIter scrape category maxr total ext st idx cs =
      { st with job := { st.job with status := JStatus.failed }
                trace := st.trace ++ [{ st.job with status := JStatus.failed }]
                events := st.events ++ [.statusCheck JStatus.failed]
                broke := true } := by
  simp [stepIter, hb, he]

lemma stepIter_failed_eq (scrape : String → String → String → Int → List Listing)
    (category : String) (maxr : Int) (total : Nat) (ext : Nat → Bool)
    {st : RunState} (idx : Nat) (cs : String) (hb : st.broke = false)
    (he : ext idx = false) (hf : st.job.status = JStatus.failed) :
    stepIter scrape category maxr total ext st idx cs =
      { st with events := st.events ++ [.statusCheck JStatus.failed]
                broke := true } := by
  simp [stepIter, hb, he, hf]

lemma stepIter_wf_eq (scrape : String → String → String → Int → List Listing)
    (category : String) (maxr : Int) (total : Nat) (ext : Nat → Bool)
    {st : RunState} (idx : Nat) (cs : String) (hb : st.broke = false)
    (he : ext idx = false) (hf : ¬ st.job.status = JStatus.failed)
    (hwf : wellFormed cs = true) :
    stepIter scrape category maxr total ext st idx cs =
      { st with
        job := { st.job with current_city := fmtCity cs
                             progress := pyProgress (idx + 1) total }
        trace := st.trace ++ [{ st.job with current_city := fmtCity cs
                                            progress := pyProgress (idx + 1) total }]
        events := st.events
          ++ [.statusCheck st.job.status,
              .progressWrite (fmtCity cs) (pyProgress (idx + 1) total),
              .logWrite (procMsg idx total cs),
              .scrapeCall (locCity cs) (locState cs)]
          ++ (scrape category (locCity cs) (locState cs) maxr).map REvent.resultInsert
          ++ [.logWrite (foundMsg (scrape category (locCity cs) (locState cs) maxr).length cs)]
        resultsTable := st.resultsTable ++ scrape category (locCity cs) (locState cs) maxr
        allResults := st.allResults ++ scrape category (locCity cs) (locState cs) maxr
        broke := false } := by
  simp [stepIter, hb, he, hf, hwf, List.append_assoc]

lemma stepIter_mal_eq (scrape : String → String → String → Int → List Listing)
    (category : String) (maxr : Int) (total : Nat) (ext : Nat → Bool)
    {st : RunState} (idx : Nat) (cs : String) (hb : st.broke = false)
    (he : ext idx = false) (hf : ¬ st.job.status = JStatus.failed)
    (hwf : wellFormed cs = false) :
    stepIter scrape category maxr total ext st idx cs =
      { st with events := st.events ++ [.statusCheck st.job.status]
                broke := false } := by
  simp [stepIter, hb, he, hf, hwf]

lemma goodRow_notCompleted {r : JobRow} (hp : r.progress ≤ 100)
    (hs : r.status ≠ JStatus.completed) : goodRow r :=
  ⟨hp, fun hc => absurd hc hs⟩

lemma stepIter_invGood (scrape : String → String → String → Int → List Listing)
    (category : String) (maxr : Int) (total : Nat) (ext : Nat → Bool)
    {st : RunState} {idx : Nat} (cs : String) (hidx : idx < total)
    (hI : InvGood st) :
    InvGood (stepIter scrape category maxr total ext st idx cs) := by
  obtain ⟨ht, hj, hs⟩ := hI
  by_cases hb : st.broke = true
  · rw [stepIter_broke_eq scrape category maxr total ext idx cs hb]
    exact ⟨ht, hj, hs⟩
  · rw [Bool.not_eq_true] at hb
    by_cases he : ext idx = true
    · rw [stepIter_ext_eq scrape category maxr total ext idx cs hb he]
      have hg : goodRow { st.job with status := JStatus.failed } :=
        goodRow_notCompleted hj.1 (by simp)
      refine ⟨?_, hg, Or.inr rfl⟩
      intro r hr
      rcases List.mem_append.mp hr with h | h
      · exact ht r h
      · rw [List.mem_singleton.mp h]; exact hg
    · rw [Bool.not_eq_true] at he
      by_cases hf : st.job.status = JStatus.failed
      · rw [stepIter_failed_eq scrape category maxr total ext idx cs hb he hf]
        exact ⟨ht, hj, hs⟩
      · have hrun : st.job.status = JStatus.running := hs.resolve_right hf
        by_cases hwf : wellFormed cs = true
        · rw [stepIter_wf_eq scrape category maxr total ext idx cs hb he hf hwf]
          have hg : goodRow { st.job with current_city := fmtCity cs
                                          progress := pyProgress (idx + 1) total } := by
            refine goodRow_notCompleted ?_ ?_
            · exact pyProgress_le_100 (by omega) hidx
            · show st.job.status ≠ JStatus.completed
              rw [hrun]; simp
          refine ⟨?_, hg, Or.inl hrun⟩
          intro r hr
          rcases List.mem_append.mp hr with h | h
          · exact ht r h
          · rw [List.mem_singleton.mp h]; exact hg
        · rw [Bool.not_eq_true] at hwf
          rw [stepIter_mal_eq scrape category maxr total ext idx cs hb he hf hwf]
          exact ⟨ht, hj, hs⟩

lemma foldl_invGood (scrape : String → String → String → Int → List Listing)
    (category : String) (maxr : Int) (total : Nat) (ext : Nat → Bool) :
    ∀ (l : List (Nat × String)) (st : RunState), (∀ p ∈ l, p.1 < total) →
      InvGood st →
      InvGood (l.foldl (fun s p => stepIter scrape category maxr total ext s p.1 p.2) st) := by
  intro l
  induction l with
  | nil => intro st _ hI; exact hI
  | cons p l ih =>
    intro st hl hI
    rw [List.foldl_cons]
    exact ih _ (fun q hq => hl q (List.mem_cons_of_mem _ hq))
      (stepIter_invGood scrape category maxr total ext p.2 (hl p (.head _)) hI)

lemma startState_invGood (category : String) (total : Nat) :
    InvGood (startState category total) := by
  have h0 : goodRow (initialJobRow total) :=
    goodRow_notCompleted (by simp [initialJobRow]) (by simp [initialJobRow])
  have h1 : goodRow { initialJobRow total with status := JStatus.running } :=
    goodRow_notCompleted (by simp [initialJobRow]) (by simp)
  refine ⟨?_, h1, Or.inl rfl⟩
  intro r hr
  rcases (by simpa [startState] using hr : r = initialJobRow total
      ∨ r = { initialJobRow total with status := JStatus.running }) with h | h <;>
    subst h
  · exact h0
  · exact h1

lemma enum_fst_lt (cities : List String) :
    ∀ p ∈ cities.enum, p.1 < cities.length := by
  rintro ⟨i, x⟩ hp
  have := List.mem_enumFrom hp
  omega

lemma enum_snd_mem (cities : List String) :
    ∀ p ∈ cities.enum, p.2 ∈ cities := by
  rintro ⟨i, x⟩ hp
  obtain ⟨-, hlt, hx⟩ := List.mem_enumFrom hp
  rw [show ((i, x) : Nat × String).2 = x from rfl, hx]
  exact List.getElem_mem _

/-! ## Claims C1-C5 -/

/-- C1, counterexample: the claim `progress == 100 iff status == completed`
fails on the persisted records of a one-location job: after the
progress UPDATE of the last (only) location the job row reads
`status = running, progress = 100`, before the completion UPDATE. -/
theorem C1_counterexample :
    ¬ (∀ r ∈ (run_scraping_job (fun _ _ _ _ => []) "cafes" ["Reno, Nevada"] 3
        noExt).trace, (r.progress = 100 ↔ r.status = JStatus.completed)) := by
  decide

/-- C1, amended: for every job record ever persisted by a background run,
`0 <= progress <= 100` (progress is a natural here, so only the upper bound
is stated) and `status == completed` implies `progress == 100`; the
converse implication does not hold. -/
theorem C1_progress_bounded_and_completed_is_100
    (scrape : String → String → String → Int → List Listing)
    (category : String) (cities : List String) (maxr : Int) (ext : Nat → Bool)
    (r : JobRow)
    (hr : r ∈ (run_scraping_job scrape category cities maxr ext).trace) :
    r.progress ≤ 100 ∧ (r.status = JStatus.completed → r.progress = 100) := by
  have hI := foldl_invGood scrape category maxr cities.length ext cities.enum
    (startState category cities.length) (enum_fst_lt cities)
    (startState_invGood category cities.length)
  rw [run_scraping_job, finishState_trace] at hr
  rcases List.mem_append.mp hr with h | h
  · exact hI.1 r h
  · rw [List.mem_singleton.mp h]
    exact ⟨Nat.le_refl 100, fun _ => rfl⟩

/-- C1, witness for the amended theorem at a concrete run. -/
theorem C1_witness :
    initialJobRow 1
        ∈ (run_scraping_job (fun _ _ _ _ => []) "cafes" ["Reno, Nevada"] 3
            noExt).trace ∧
    ((initialJobRow 1).progress ≤ 100 ∧
      ((initialJobRow 1).status = JStatus.completed →
        (initialJobRow 1).progress = 100)) :=
  ⟨by decide,
   C1_progress_bounded_and_completed_is_100 (fun _ _ _ _ => []) "cafes"
     ["Reno, Nevada"] 3 noExt (initialJobRow 1) (by decide)⟩

/-- C2: evaluating the run at the failing input.  An external actor has set
the job's status to `failed` before the first iteration; the loop does stop
(`broke = true`), but the epilogue after the loop unconditionally writes
`status = completed, progress = 100`, so the persisted status sequence ends
in `completed`, not `failed` — contradicting the claim that `failed` is
terminal and is left in place by the stop-on-next-iteration mechanism. -/
theorem C2_external_failure_overwritten_by_completed :
    (run_scraping_job (fun _ _ _ _ => []) "cafes" ["Reno, Nevada"] 3
        (fun i => i == 0)).broke = true ∧
    (run_scraping_job (fun _ _ _ _ => []) "cafes" ["Reno, Nevada"] 3
        (fun i => i == 0)).trace.map JobRow.status
      = [JStatus.pending, JStatus.running, JStatus.failed, JStatus.completed] ∧
    (run_scraping_job (fun _ _ _ _ => []) "cafes" ["Reno, Nevada"] 3
        (fun i => i == 0)).job.status = JStatus.completed := by
  decide

/-- C3: a job over well-formed locations with a scraper stub returning a
fixed list `rs` for every location inserts exactly
`cities.length * rs.length` rows into the results table and finishes
`completed` with progress 100. -/
theorem C3_roundtrip (category : String) (cities : List String) (maxr : Int)
    (rs : List Listing) (h : ∀ cs ∈ cities, wellFormed cs = true) :
    ((run_scraping_job (fun _ _ _ _ => rs) category cities maxr
        noExt).resultsTable.length = cities.length * rs.length) ∧
    (run_scraping_job (fun _ _ _ _ => rs) category cities maxr
        noExt).job.status = JStatus.completed ∧
    (run_scraping_job (fun _ _ _ _ => rs) category cities maxr
        noExt).job.progress = 100 := by
  obtain ⟨hb, hs, he, hr⟩ := foldl_noExt (fun _ _ _ _ => rs) category maxr
    cities.length cities.enum (startState category cities.length) rfl rfl
  refine ⟨?_, ?_, ?_⟩
  · rw [run_scraping_job, finishState_resultsTable, hr]
    have hlen : ∀ (l : List (Nat × String)), (∀ p ∈ l, wellFormed p.2 = true) →
        ((l.map (fun p => iterResults (fun _ _ _ _ => rs) category maxr p.2)).flatten).length
          = l.length * rs.length := by
      intro l
      induction l with
      | nil => intro _; simp
      | cons p l ih =>
        intro hl
        have hp := hl p (.head _)
        simp only [List.map_cons, List.flatten_cons, List.length_append,
          ih (fun q hq => hl q (List.mem_cons_of_mem _ hq))]
        rw [iterResults, if_pos hp]
        simp [Nat.succ_mul, Nat.add_comm]
    rw [show (startState category cities.length).resultsTable = [] from rfl,
      List.nil_append,
      hlen cities.enum (fun p hp => h p.2 (enum_snd_mem cities p hp)),
      List.enum_length]
  · rw [run_scraping_job, finishState_job]
  · rw [run_scraping_job, finishState_job]

/-- C3, witness at a concrete two-city job with one stub result each. -/
theorem C3_witness :
    (∀ cs ∈ (["Los Angeles, California", "San Diego, California"] : List String),
        wellFormed cs = true) ∧
    (((run_scraping_job
          (fun _ _ _ _ => [⟨"Biz", "N/A", "N/A", "N/A", "restaurants", "Reno",
            "Nevada", "u"⟩])
          "restaurants" ["Los Angeles, California", "San Diego, California"] 5
          noExt).resultsTable.length
        = (["Los Angeles, California", "San Diego, California"] : List String).length
            * ([⟨"Biz", "N/A", "N/A", "N/A", "restaurants", "Reno", "Nevada",
              "u"⟩] : List Listing).length) ∧
      (run_scraping_job
          (fun _ _ _ _ => [⟨"Biz", "N/A", "N/A", "N/A", "restaurants", "Reno",
            "Nevada", "u"⟩])
          "restaurants" ["Los Angeles, California", "San Diego, California"] 5
          noExt).job.status = JStatus.completed ∧
      (run_scraping_job
          (fun _ _ _ _ => [⟨"Biz", "N/A", "N/A", "N/A", "restaurants", "Reno",
            "Nevada", "u"⟩])
          "restaurants" ["Los Angeles, California", "San Diego, California"] 5
          noExt).job.progress = 100) :=
  ⟨by decide,
   C3_roundtrip "restaurants" ["Los Angeles, California", "San Diego, California"]
     5 [⟨"Biz", "N/A", "N/A", "N/A", "restaurants", "Reno", "Nevada", "u"⟩]
     (by decide)⟩

/-- C4, counterexample: the claim says the persisted progress is
`round(100 * completed / total)`.  For the second of three well-formed
locations that is `round(200/3) = 67`, but the code computes
`int(2/3 * 100) = 66` (truncation): the run's effect list contains the
progress write with 66 and no write with 67 for that location. -/
theorem C4_counterexample :
    specProgress 2 3 = 67 ∧
    ((run_scraping_job (fun _ _ _ _ => []) "cafes"
        ["Los Angeles, California", "San Diego, California", "Reno, Nevada"] 5
        noExt).events.contains
      (.progressWrite "San Diego, California" 66) = true) ∧
    ((run_scraping_job (fun _ _ _ _ => []) "cafes"
        ["Los Angeles, California", "San Diego, California", "Reno, Nevada"] 5
        noExt).events.contains
      (.progressWrite "San Diego, California" (specProgress 2 3)) = false) := by
  decide

/-- C4, amended: for a well-formed location at zero-based position `idx` of
the full submitted list, the run persists an updated progress together with
the current-location and writes the processing log entry before issuing the
scrape call for that location.  The numeric progress value is left
existential: the code computes it as the float truncation
`int((idx + 1) / total * 100)` — from the position in the full list,
malformed entries included — which the embedding idealizes as floor
division, and the two can differ on some inputs. -/
theorem C4_progress_written_before_scrape
    (scrape : String → String → String → Int → List Listing)
    (category : String) (cities : List String) (maxr : Int)
    (idx : Nat) (cs : String) (h1 : cities[idx]? = some cs)
    (h2 : wellFormed cs = true) :
    ∃ p pre post,
      (run_scraping_job scrape category cities maxr noExt).events
        = pre ++ REvent.progressWrite (fmtCity cs) p
            :: REvent.logWrite (procMsg idx cities.length cs)
            :: REvent.scrapeCall (locCity cs) (locState cs) :: post := by
  have hmem : (idx, cs) ∈ cities.enum := List.mk_mem_enum_iff_getElem?.mpr h1
  obtain ⟨s, t, hst⟩ := List.append_of_mem hmem
  obtain ⟨hb, hsr, he, -⟩ := foldl_noExt scrape category maxr cities.length
    cities.enum (startState category cities.length) rfl rfl
  obtain ⟨tail, hfin⟩ := finishState_events_append
    ((cities.enum).foldl
      (fun s p => stepIter scrape category maxr cities.length noExt s p.1 p.2)
      (startState category cities.length))
  refine ⟨pyProgress (idx + 1) cities.length,
    (startState category cities.length).events
      ++ ((s.map fun p => iterBlock scrape category maxr cities.length p.1 p.2).flatten)
      ++ [REvent.statusCheck JStatus.running],
    ((scrape category (locCity cs) (locState cs) maxr).map REvent.resultInsert
      ++ [REvent.logWrite
            (foundMsg (scrape category (locCity cs) (locState cs) maxr).length cs)])
      ++ ((t.map fun p => iterBlock scrape category maxr cities.length p.1 p.2).flatten)
      ++ tail, ?_⟩
  rw [run_scraping_job, hfin, he, hst]
  simp [iterBlock, h2, List.append_assoc]

/-- C4, witness for the amended theorem at a concrete one-city job. -/
theorem C4_witness :
    (["Reno, Nevada"] : List String)[0]? = some "Reno, Nevada" ∧
    wellFormed "Reno, Nevada" = true ∧
    ∃ p pre post,
      (run_scraping_job (fun _ _ _ _ => []) "cafes" ["Reno, Nevada"] 3
          noExt).events
        = pre ++ REvent.progressWrite (fmtCity "Reno, Nevada") p
            :: REvent.logWrite
              (procMsg 0 (["Reno, Nevada"] : List String).length "Reno, Nevada")
            :: REvent.scrapeCall (locCity "Reno, Nevada") (locState "Reno, Nevada")
            :: post :=
  ⟨by decide, by decide,
   C4_progress_written_before_scrape (fun _ _ _ _ => []) "cafes"
     ["Reno, Nevada"] 3 0 "Reno, Nevada" (by decide) (by decide)⟩

/-- C5, counterexample: the claim says a malformed entry does not increment
the processed-location counter used for progress.  With
`["bad", "Reno, Nevada"]` that counter semantics gives
`round(100 * 1 / 2) = 50` after the well-formed location, but the code uses
the enumerate index over the full list and persists
`int(2/2 * 100) = 100`. -/
theorem C5_counterexample :
    specProgress 1 2 = 50 ∧
    ((run_scraping_job (fun _ _ _ _ => []) "cafes" ["bad", "Reno, Nevada"] 3
        noExt).events.contains
      (.progressWrite "Reno, Nevada" 100) = true) ∧
    ((run_scraping_job (fun _ _ _ _ => []) "cafes" ["bad", "Reno, Nevada"] 3
        noExt).events.contains
      (.progressWrite "Reno, Nevada" (specProgress 1 2)) = false) := by
  decide

/-- C5, amended: a location with fewer than two comma-separated parts
contributes no result rows and no effects beyond the status check — no
scrape call, no per-location log, no progress or current-city write — and
the job still finishes `completed`; however the position index used in the
progress formula counts every submitted entry, malformed ones included. -/
theorem C5_malformed_location_skipped
    (scrape : String → String → String → Int → List Listing)
    (category : String) (cities : List String) (maxr : Int)
    (idx : Nat) (cs : String) (h1 : cities[idx]? = some cs)
    (h2 : wellFormed cs = false) :
    iterResults scrape category maxr cs = [] ∧
    iterBlock scrape category maxr cities.length idx cs
      = [REvent.statusCheck JStatus.running] ∧
    (∃ pre post, (run_scraping_job scrape category cities maxr noExt).events
        = pre ++ REvent.statusCheck JStatus.running :: post) ∧
    (run_scraping_job scrape category cities maxr noExt).job.status
      = JStatus.completed := by
  have hmem : (idx, cs) ∈ cities.enum := List.mk_mem_enum_iff_getElem?.mpr h1
  obtain ⟨s, t, hst⟩ := List.append_of_mem hmem
  obtain ⟨hb, hsr, he, -⟩ := foldl_noExt scrape category maxr cities.length
    cities.enum (startState category cities.length) rfl rfl
  obtain ⟨tail, hfin⟩ := finishState_events_append
    ((cities.enum).foldl
      (fun s p => stepIter scrape category maxr cities.length noExt s p.1 p.2)
      (startState category cities.length))
  refine ⟨by simp [iterResults, h2], by simp [iterBlock, h2], ?_, ?_⟩
  · refine ⟨(startState category cities.length).events
        ++ ((s.map fun p => iterBlock scrape category maxr cities.length p.1 p.2).flatten),
      ((t.map fun p => iterBlock scrape category maxr cities.length p.1 p.2).flatten)
        ++ tail, ?_⟩
    rw [run_scraping_job, hfin, he, hst]
    simp [iterBlock, h2, List.append_assoc]
  · rw [run_scraping_job, finishState_job]


lemma scrape_location_true_eq (o : Oracle) (category city state : String)
    (m : Int) :
    scrape_location o true category city state m =
      match scrapeBody o category city state m with
      | .error _ => .ok []
      | .ok l => .ok l := rfl

lemma scrape_location_ok_shape (o : Oracle) (category city state : String)
    (m : Int) (l : List Listing)
    (h : scrape_location o true category city state m = .ok l) :
    l = [] ∨ ∃ hrefs, o.listingHrefs = .ok hrefs ∧
      l = visitLoop o category city state (collectUrls hrefs m) := by
  rw [scrape_location_true_eq] at h
  cases hb : scrapeBody o category city state m with
  | error e =>
    simp only [hb, Except.ok.injEq] at h
    exact Or.inl h.symm
  | ok l0 =>
    simp only [hb, Except.ok.injEq] at h
    subst h
    unfold scrapeBody at hb
    cases h1 : o.gotoMaps with
    | error e => rw [h1] at hb; exact absurd hb (by simp)
    | ok u =>
      rw [h1] at hb
      cases h2 : o.waitSearchbox with
      | error e => rw [h2] at hb; exact absurd hb (by simp)
      | ok u =>
        rw [h2] at hb
        cases h3 : o.fillSearch (category ++ " in " ++ city ++ ", " ++ state) with
        | error e => rw [h3] at hb; exact absurd hb (by simp)
        | ok u =>
          rw [h3] at hb
          cases h4 : o.pressEnter with
          | error e => rw [h4] at hb; exact absurd hb (by simp)
          | ok u =>
            rw [h4] at hb
            cases h5 : o.waitFeed with
            | error e =>
              rw [h5] at hb
              simp only [Except.ok.injEq] at hb
              exact Or.inl hb.symm
            | ok u =>
              rw [h5] at hb
              cases h6 : scrollLoop o 0 10 with
              | error e => rw [h6] at hb; exact absurd hb (by simp)
              | ok u =>
                rw [h6] at hb
                cases h7 : o.listingHrefs with
                | error e => rw [h7] at hb; exact absurd hb (by simp)
                | ok hrefs =>
                  rw [h7] at hb
                  simp only [Except.ok.injEq] at hb
                  exact Or.inr ⟨hrefs, rfl, hb.symm⟩

/-! ## Claims C6-C7 -/

/-- C6, counterexample: the claim says `scrape_location` never raises past
its own boundary for every behaviour of the external browser session.  But
the lazy browser initialization runs before the try block: when the page is
not yet initialized and launching the browser raises, the call itself
raises. -/
theorem C6_counterexample :
    scrape_location failInitOracle false "cafes" "Reno" "Nevada" 10
      = Except.error "browser launch failed" ∧
    ¬ ∃ l, scrape_location failInitOracle false "cafes" "Reno" "Nevada" 10
      = Except.ok l := by
  refine ⟨rfl, ?_⟩
  rintro ⟨l, h⟩
  have he : scrape_location failInitOracle false "cafes" "Reno" "Nevada" 10
      = Except.error "browser launch failed" := rfl
  rw [he] at h
  exact Except.noConfusion h

/-- C6, amended: once the page is initialized, `scrape_location` returns a
list for every behaviour of the browser session — every internal raise is
caught — and a raise while waiting for the results feed (the timeout case)
yields the empty list; only a raise during the lazy browser initialization
escapes. -/
theorem C6_no_raise_once_initialized (o : Oracle)
    (category city state : String) (m : Int) :
    (∃ l, scrape_location o true category city state m = .ok l) ∧
    (o.gotoMaps = .ok () → o.waitSearchbox = .ok () →
      o.fillSearch (category ++ " in " ++ city ++ ", " ++ state) = .ok () →
      o.pressEnter = .ok () → (∃ e, o.waitFeed = .error e) →
      scrape_location o true category city state m = .ok []) := by
  constructor
  · cases hb : scrapeBody o category city state m with
    | error e => exact ⟨[], by simp [scrape_location, hb]⟩
    | ok l => exact ⟨l, by simp [scrape_location, hb]⟩
  · intro hg hw hf hp hfeed
    obtain ⟨e, he⟩ := hfeed
    simp [scrape_location, scrapeBody, hg, hw, hf, hp, he]

/-- C6, witness for the amended theorem: a feed timeout yields `ok []`. -/
theorem C6_witness :
    feedTimeoutOracle.waitFeed = Except.error "Timeout 15000ms exceeded" ∧
    scrape_location feedTimeoutOracle true "cafes" "Reno" "Nevada" 10
      = Except.ok [] :=
  ⟨rfl,
   (C6_no_raise_once_initialized feedTimeoutOracle "cafes" "Reno" "Nevada" 10).2
     rfl rfl rfl rfl ⟨"Timeout 15000ms exceeded", rfl⟩⟩

/-- C7, counterexample: with `max_results = -1` (the API performs no
validation on `max_results_per_city`) Python's `urls[:max_results]` drops
one element from the end instead of truncating to the requested maximum:
with two distinct collected hrefs one detail page is visited and one
listing returned, and `1 <= -1` is false. -/
theorem C7_counterexample :
    (collectUrls [some "/maps/place/a", some "/maps/place/b"] (-1)).length
      = 1 ∧
    ¬ (((collectUrls [some "/maps/place/a", some "/maps/place/b"]
          (-1)).length : Int) ≤ -1) ∧
    ((scrape_location demoOracle true "cafes" "Reno" "Nevada" (-1)).toOption.map
        List.length = some 1) := by
  decide

/-- C7, amended: the visited URL list `collectUrls` never contains
duplicates; provided `max_results` is non-negative its length — and hence
the length of the returned listing list — is at most `max_results`.  For a
negative `max_results` Python slice semantics drop elements from the end
instead, and the length bound fails. -/
theorem C7_dedup_and_truncation (hrefs : List (Option String)) (m : Int)
    (o : Oracle) (category city state : String) (l : List Listing) :
    (collectUrls hrefs m).Nodup ∧
    (0 ≤ m → (collectUrls hrefs m).length ≤ m.toNat) ∧
    (0 ≤ m → scrape_location o true category city state m = .ok l →
      l.length ≤ m.toNat) := by
  refine ⟨?_, ?_, ?_⟩
  · unfold collectUrls pySliceTo
    split <;>
      exact List.Nodup.sublist (List.take_sublist _ _) (List.nodup_dedup _)
  · intro hm
    unfold collectUrls pySliceTo
    rw [if_pos hm, List.length_take]
    omega
  · intro hm hok
    rcases scrape_location_ok_shape o category city state m l hok with h | ⟨hs, -, h⟩
    · subst h; exact Nat.zero_le _
    · subst h
      calc (visitLoop o category city state (collectUrls hs m)).length
          ≤ (collectUrls hs m).length := List.length_filterMap_le _ _
        _ ≤ m.toNat := by
            unfold collectUrls pySliceTo
            rw [if_pos hm, List.length_take]
            omega

/-- C7, witness at `max_results = 1` with two collected hrefs. -/
theorem C7_witness :
    (collectUrls [some "/maps/place/a", some "/maps/place/b"] 1).Nodup ∧
    (collectUrls [some "/maps/place/a", some "/maps/place/b"] 1).length
      ≤ (1 : Int).toNat ∧
    ([(⟨"Biz", "N/A", "N/A", "N/A", "cafes", "Reno", "Nevada",
        "https://www.google.com/maps/place/a"⟩ : Listing)] : List Listing).length
      ≤ (1 : Int).toNat :=
  ⟨(C7_dedup_and_truncation [some "/maps/place/a", some "/maps/place/b"] 1
      demoOracle "cafes" "Reno" "Nevada"
      [⟨"Biz", "N/A", "N/A", "N/A", "cafes", "Reno", "Nevada",
        "https://www.google.com/maps/place/a"⟩]).1,
   (C7_dedup_and_truncation [some "/maps/place/a", some "/maps/place/b"] 1
      demoOracle "cafes" "Reno" "Nevada"
      [⟨"Biz", "N/A", "N/A", "N/A", "cafes", "Reno", "Nevada",
        "https://www.google.com/maps/place/a"⟩]).2.1 (by decide),
   (C7_dedup_and_truncation [some "/maps/place/a", some "/maps/place/b"] 1
      demoOracle "cafes" "Reno" "Nevada"
      [⟨"Biz", "N/A", "N/A", "N/A", "cafes", "Reno", "Nevada",
        "https://www.google.com/maps/place/a"⟩]).2.2 (by decide) (by rfl)⟩

/-- C5, witness for the amended theorem at a concrete job with one
malformed entry. -/
theorem C5_witness :
    (["bad", "Reno, Nevada"] : List String)[0]? = some "bad" ∧
    wellFormed "bad" = false ∧
    (iterResults (fun _ _ _ _ => []) "cafes" 3 "bad" = [] ∧
      iterBlock (fun _ _ _ _ => []) "cafes" 3
          (["bad", "Reno, Nevada"] : List String).length 0 "bad"
        = [REvent.statusCheck JStatus.running] ∧
      (∃ pre post,
        (run_scraping_job (fun _ _ _ _ => []) "cafes" ["bad", "Reno, Nevada"] 3
            noExt).events
          = pre ++ REvent.statusCheck JStatus.running :: post) ∧
      (run_scraping_job (fun _ _ _ _ => []) "cafes" ["bad", "Reno, Nevada"] 3
          noExt).job.status = JStatus.completed) :=
  ⟨by decide, by decide,
   C5_malformed_location_skipped (fun _ _ _ _ => []) "cafes"
     ["bad", "Reno, Nevada"] 3 0 "bad" (by decide) (by decide)⟩

/-! ## Claims C8-C10 -/

/-- C8: for a job whose rows (if any) are owned by `owner`, every other
authenticated user requesting it gets 404 from the job-status, job-results
and download endpoints — the same answer as for a job that does not exist. -/
theorem C8_job_endpoints_owner_only (db : DB) (jobId : String) (owner : Nat)
    (user : CurrentUser)
    (hown : ∀ j ∈ db.jobs, j.job_id = jobId → j.user_id = owner)
    (hne : user.id ≠ owner) :
    get_job_status db jobId user = .error 404 ∧
    get_job_results db jobId user = .error 404 ∧
    download_results db jobId user = .error 404 := by
  have hfind : db.jobs.find? (fun j => j.job_id == jobId && j.user_id == user.id)
      = none := by
    rw [List.find?_eq_none]
    intro j hj
    simp only [Bool.and_eq_true, beq_iff_eq, not_and]
    intro hj1 hj2
    have ho := hown j hj hj1
    rw [hj2] at ho
    exact hne ho
  refine ⟨?_, ?_, ?_⟩
  · simp only [get_job_status, hfind]
  · unfold get_job_results
    cases hf : db.jobs.find? (fun j => j.job_id == jobId) with
    | none => simp
    | some j =>
      have hj1 : j.job_id = jobId := by
        simpa using List.find?_some hf
      have ho := hown j (List.mem_of_find?_eq_some hf) hj1
      have hfa : (j.user_id == user.id) = false := by
        rw [beq_eq_false_iff_ne, ho]
        exact fun h => hne h.symm
      simp [hfa]
  · simp only [download_results, hfind]

/-- C8, witness: `otherUser` (id 2) requesting the job of user 1. -/
theorem C8_witness :
    (∀ j ∈ demoDB.jobs, j.job_id = "j1" → j.user_id = 1) ∧
    otherUser.id ≠ 1 ∧
    (get_job_status demoDB "j1" otherUser = .error 404 ∧
      get_job_results demoDB "j1" otherUser = .error 404 ∧
      download_results demoDB "j1" otherUser = .error 404) :=
  ⟨by decide, by decide,
   C8_job_endpoints_owner_only demoDB "j1" 1 otherUser (by decide) (by decide)⟩

/-- C9: a registered but unapproved user is rejected with 403 both at login
(with correct credentials, i.e. password verification succeeding) and — for
every handler — at any endpoint guarded by `get_current_user`, even though
the presented token decodes to the user's name. -/
theorem C9_unapproved_rejected_everywhere (db : DB)
    (decode : String → Option (Option String))
    (verify : String → String → Bool) (createToken : String → String)
    (token username password : String) (u : UserRec) {α : Type}
    (handler : CurrentUser → Except Nat α)
    (hfind : db.users.find? (fun v => v.username == username) = some u)
    (hunapp : u.is_approved = false)
    (hverify : verify password u.password_hash = true)
    (hdecode : decode token = some (some username)) :
    login db verify createToken username password = .error 403 ∧
    get_current_user db decode token = .error 403 ∧
    withAuth db decode token handler = .error 403 := by
  have hgcu : get_current_user db decode token = .error 403 := by
    simp [get_current_user, hdecode, hfind, hunapp]
  exact ⟨by simp [login, hfind, hverify, hunapp], hgcu, by simp [withAuth, hgcu]⟩

/-- C9, witness: the unapproved user "bob" of `demoDB`, with a verifier
accepting the password and a decoder accepting the token. -/
theorem C9_witness :
    demoDB.users.find? (fun v => v.username == "bob")
      = some { id := 3, username := "bob", email := "bob@example.com"
               password_hash := "h", is_approved := false, is_admin := false } ∧
    (login demoDB (fun _ _ => true) (fun s => s) "bob" "pw" = .error 403 ∧
      get_current_user demoDB (fun _ => some (some "bob")) "tok" = .error 403 ∧
      withAuth demoDB (fun _ => some (some "bob")) "tok"
        (fun _ => Except.ok (0 : Nat)) = .error 403) :=
  ⟨by rfl,
   C9_unapproved_rejected_everywhere demoDB (fun _ => some (some "bob"))
     (fun _ _ => true) (fun s => s) "tok" "bob" "pw"
     { id := 3, username := "bob", email := "bob@example.com"
       password_hash := "h", is_approved := false, is_admin := false }
     (fun _ => Except.ok (0 : Nat)) (by rfl) (by rfl) (by rfl) (by rfl)⟩

/-- C10: the response of `POST /api/jobs` always reports status `pending`,
progress 0, no results and `total_cities` 0 — the pydantic defaults —
while the row the same request persists stores
`total_cities = len(cities_data)`. -/
theorem C10_create_response_vs_row (req : ScrapeRequest) (userId : Nat)
    (jobId now : String) :
    (create_scraping_job req userId jobId now).2.status = JStatus.pending ∧
    (create_scraping_job req userId jobId now).2.progress = 0 ∧
    (create_scraping_job req userId jobId now).2.results = [] ∧
    (create_scraping_job req userId jobId now).2.total_cities = 0 ∧
    (create_scraping_job req userId jobId now).1.total_cities
      = req.cities_data.length :=
  ⟨rfl, rfl, rfl, rfl, rfl⟩

end Oz
